import Mathlib

/-!
Shallow embedding of the two n8n trigger nodes in
`src/nodes/SlackSocketDashTrigger/SlackSocketDashTrigger.node.ts` and
`src/nodes/SlackSocketTriggerV2Trigger/SlackSocketTriggerV2Trigger.node.ts`.

Each `trigger()` body is modelled as a function from the host environment
(credentials, node parameters, execution mode) and the outcomes of the Bolt
SDK calls (`app.start`, `app.stop`, `ack`) to a trace of observable calls
(SDK registrations, starts, stops, log lines, emissions) together with a
resolve/reject result, mirroring the sequential `await`/`try`/`catch`
structure of the TypeScript source.
-/

namespace SlackSocket

/-- Credential record fetched via `this.getCredentials` from the host
credential store (`interface SlackCredential` in both node files). -/
structure SlackCredential where
  botToken : String
  appToken : String
  signingSecret : String
  deriving DecidableEq, Repr

/-- Outcome of an awaited SDK promise (`app.start()`, `app.stop()`, `ack()`):
it either resolves, or rejects with an error value (modelled as a string). -/
inductive SdkResult where
  | ok : SdkResult
  | err : String → SdkResult
  deriving DecidableEq, Repr

/-- True when the SDK promise resolved. -/
def SdkResult.isOk : SdkResult → Bool
  | .ok => true
  | .err _ => false

/-- Execution mode reported by `this.getMode()`; the source only distinguishes
the value `trigger` from everything else (the manual test invocation). -/
inductive Mode where
  | trigger
  | manual
  deriving DecidableEq, Repr

/-- The three options of the `triggerType` node property declared in the
`description` of both nodes: `slashCommand`, `events`, `interactiveComponent`. -/
inductive TriggerType where
  | slashCommand
  | events
  | interactiveComponent
  deriving DecidableEq, Repr

/-- Pattern passed to `app.command`: either the literal slash-command name
string, or the regex `/.*/`, which matches every string. -/
inductive CommandPattern where
  | exact : String → CommandPattern
  | regexCatchAll : CommandPattern
  deriving DecidableEq, Repr

/-- Bolt listener matching for `app.command`: a string pattern matches a
command name by equality, and the regex `/.*/` matches every command name. -/
def commandMatches : CommandPattern → String → Bool
  | .exact n, c => c == n
  | .regexCatchAll, _ => true

/-- The pattern registered by the listener-setup code, identical in both files:
`if (slashCommandName) app.command(slashCommandName, handler) else
app.command(/.*/, handler)`; a JavaScript string is truthy exactly when it is
non-empty. -/
def registeredPattern (slashCommandName : String) : CommandPattern :=
  if slashCommandName = "" then .regexCatchAll else .exact slashCommandName

/-- The destructured optional fields of the argument object Bolt passes to a
command listener (`const { ack, command, body, context, payload } = params`),
with the `ack` callback handled separately. Fields the client did not supply
are `none` (JavaScript `undefined`). -/
structure HandlerParams (V : Type) where
  command : Option V
  body : Option V
  context : Option V
  payload : Option V
  deriving DecidableEq, Repr

/-- Value built by `this.helpers.returnJsonArray(obj)` for a single object:
the host helper wraps the object; the wrapper itself is opaque to this code. -/
structure JsonArrayItem (V : Type) where
  json : HandlerParams V
  deriving DecidableEq, Repr

/-- Observable calls made by one invocation of the registered handler. -/
inductive HEvent (V : Type) where
  | ackCall : HEvent V
  | emitCall : List (JsonArrayItem V) → HEvent V
  deriving DecidableEq, Repr

/-- True for the acknowledgement call. -/
def HEvent.isAck : HEvent V → Bool
  | .ackCall => true
  | _ => false

/-- True for the emission call. -/
def HEvent.isEmit : HEvent V → Bool
  | .emitCall _ => true
  | _ => false

/-- Embedding of `process` in SlackSocketDashTrigger.node.ts: `await ack()`
(mandatory acknowledgement), then
`this.emit([this.helpers.returnJsonArray({ command, body, context, payload })])`.
If the `ack` promise rejects, the `await` re-raises and the emission is never
reached; there is no `try`/`catch` in `process`. -/
def dashProcessRun (ackResult : SdkResult) (p : HandlerParams V) :
    List (HEvent V) × Except String Unit :=
  match ackResult with
  | .ok =>
      ([HEvent.ackCall,
        HEvent.emitCall
          [{ json := { command := p.command, body := p.body,
                       context := p.context, payload := p.payload } }]],
       Except.ok ())
  | .err e => ([HEvent.ackCall], Except.error e)

/-- Embedding of `process` in SlackSocketTriggerV2Trigger.node.ts; the source
text of the function is identical to the Dash variant. -/
def v2ProcessRun (ackResult : SdkResult) (p : HandlerParams V) :
    List (HEvent V) × Except String Unit :=
  match ackResult with
  | .ok =>
      ([HEvent.ackCall,
        HEvent.emitCall
          [{ json := { command := p.command, body := p.body,
                       context := p.context, payload := p.payload } }]],
       Except.ok ())
  | .err e => ([HEvent.ackCall], Except.error e)

/-- Embedding of the `handler` arrow function in SlackSocketDashTrigger:
`async (args) => { await process.call(this, args); }` — it only awaits
`process`, so it has exactly the behaviour of `process`. -/
def dashHandlerRun (ackResult : SdkResult) (p : HandlerParams V) :
    List (HEvent V) × Except String Unit :=
  dashProcessRun ackResult p

/-- Embedding of the `handler` arrow function inside `setupEventListeners` in
SlackSocketTriggerV2Trigger: `async (args) => { await process.call(this, args); }`. -/
def v2HandlerRun (ackResult : SdkResult) (p : HandlerParams V) :
    List (HEvent V) × Except String Unit :=
  v2ProcessRun ackResult p

/-- Host environment and SDK outcome visible to one run of `trigger()`:
the stored credentials, the values of the two node parameters, the execution
mode, and the outcome of the `app.start()` call made inside `trigger()`. -/
structure Env where
  credentials : SlackCredential
  triggerType : TriggerType
  slashCommandName : String
  mode : Mode
  startResult : SdkResult
  deriving DecidableEq, Repr

/-- Observable top-level calls made by `trigger()` and the returned lifecycle
closures. The registration constructors cover the Bolt listener surface the
node could use (`app.command`, `app.event`, `app.action`); which of them the
embedded code emits mirrors the source. -/
inductive TEvent where
  | getCredentials : TEvent
  | newApp : SlackCredential → Bool → TEvent
  | getParam : String → TEvent
  | commandRegister : CommandPattern → TEvent
  | eventRegister : String → TEvent
  | actionRegister : String → TEvent
  | appStart : TEvent
  | appStop : TEvent
  | logInfo : String → TEvent
  | logError : String → String → TEvent
  deriving DecidableEq, Repr

/-- True for an `app.command` registration. -/
def TEvent.isCommandRegister : TEvent → Bool
  | .commandRegister _ => true
  | _ => false

/-- True for an `app.event` registration. -/
def TEvent.isEventRegister : TEvent → Bool
  | .eventRegister _ => true
  | _ => false

/-- True for an `app.action` registration. -/
def TEvent.isActionRegister : TEvent → Bool
  | .actionRegister _ => true
  | _ => false

/-- The trace produced by the part of `trigger()` that is identical in both
files before any start: `await this.getCredentials(...)`, `new App({...,
socketMode: true})`, `this.getNodeParameter('slashCommandName', '')`, and the
single `app.command` registration chosen by the truthiness of the filter.
Note that `triggerType` is never read by either `trigger()` body. -/
def setupPrefix (env : Env) : List TEvent :=
  [TEvent.getCredentials,
   TEvent.newApp env.credentials true,
   TEvent.getParam "slashCommandName",
   TEvent.commandRegister (registeredPattern env.slashCommandName)]

/-- Embedding of the body of `trigger()` in SlackSocketDashTrigger.node.ts up
to its `return` statement: after the common setup, in trigger mode it awaits
`app.start()` inside `try`, logs success, and in the `catch` logs the error and
`throw error` re-raises it, so `trigger()` rejects. Result `ok` means
`trigger()` resolved with the `{ closeFunction, manualTriggerFunction }`
response. -/
def dashSetup (env : Env) : List TEvent × Except String Unit :=
  match env.mode with
  | .manual => (setupPrefix env, Except.ok ())
  | .trigger =>
      match env.startResult with
      | .ok =>
          (setupPrefix env ++
             [TEvent.appStart, TEvent.logInfo "Started Slack Socket app in trigger mode"],
           Except.ok ())
      | .err e =>
          (setupPrefix env ++
             [TEvent.appStart,
              TEvent.logError "Error starting Slack Socket app in trigger mode:" e],
           Except.error e)

/-- Embedding of the body of `trigger()` in SlackSocketTriggerV2Trigger.node.ts
up to its `return` statement: the same common setup (via `setupEventListeners`),
then in trigger mode `app.start()` inside `try`; its `catch` only logs the
error — there is no `throw` — so `trigger()` always resolves. -/
def v2Setup (env : Env) : List TEvent × Except String Unit :=
  match env.mode with
  | .manual => (setupPrefix env, Except.ok ())
  | .trigger =>
      match env.startResult with
      | .ok =>
          (setupPrefix env ++
             [TEvent.appStart, TEvent.logInfo "Started Slack Socket app in trigger mode"],
           Except.ok ())
      | .err e =>
          (setupPrefix env ++
             [TEvent.appStart,
              TEvent.logError "Error starting Slack Socket app in trigger mode:" e],
           Except.ok ())

/-- Embedding of `manualTriggerFunction` in SlackSocketDashTrigger: `await
app.start()` inside `try`; on success log and resolve, in the `catch` log and
`throw error`, so the promise rejects. -/
def dashManualTriggerFunction (startResult : SdkResult) :
    List TEvent × Except String Unit :=
  match startResult with
  | .ok =>
      ([TEvent.appStart, TEvent.logInfo "Started Slack Socket app in test mode"],
       Except.ok ())
  | .err e =>
      ([TEvent.appStart,
        TEvent.logError "Error starting Slack Socket app in test mode:" e],
       Except.error e)

/-- Embedding of `manualTriggerFunction` in SlackSocketTriggerV2Trigger: the
same `try` block, but its `catch` only logs, so the promise always resolves. -/
def v2ManualTriggerFunction (startResult : SdkResult) :
    List TEvent × Except String Unit :=
  match startResult with
  | .ok =>
      ([TEvent.appStart, TEvent.logInfo "Started Slack Socket app in test mode"],
       Except.ok ())
  | .err e =>
      ([TEvent.appStart,
        TEvent.logError "Error starting Slack Socket app in test mode:" e],
       Except.ok ())

/-- Embedding of `closeFunction` in SlackSocketDashTrigger: `await app.stop()`
inside `try`; on success log, in the `catch` log the error and fall through, so
the promise always resolves. -/
def dashCloseFunction (stopResult : SdkResult) :
    List TEvent × Except String Unit :=
  match stopResult with
  | .ok =>
      ([TEvent.appStop, TEvent.logInfo "Stopped Slack Socket app"], Except.ok ())
  | .err e =>
      ([TEvent.appStop, TEvent.logError "Error stopping Slack Socket app:" e],
       Except.ok ())

/-- Embedding of `closeFunction` in SlackSocketTriggerV2Trigger; the source
text of the function is identical to the Dash variant. -/
def v2CloseFunction (stopResult : SdkResult) :
    List TEvent × Except String Unit :=
  match stopResult with
  | .ok =>
      ([TEvent.appStop, TEvent.logInfo "Stopped Slack Socket app"], Except.ok ())
  | .err e =>
      ([TEvent.appStop, TEvent.logError "Error stopping Slack Socket app:" e],
       Except.ok ())

/-- Trace of one full run of the Dash node: the `trigger()` body followed —
when `trigger()` resolved and the host invokes the returned
`manualTriggerFunction` (the Test workflow button) — by that call, with its
own `app.start()` outcome. -/
def dashRun (env : Env) (invokeManual : Bool) (manualStart : SdkResult) :
    List TEvent :=
  (dashSetup env).1 ++
    match (dashSetup env).2 with
    | .ok _ => if invokeManual then (dashManualTriggerFunction manualStart).1 else []
    | .error _ => []

/-- Trace of one full run of the V2 node, analogous to `dashRun`. -/
def v2Run (env : Env) (invokeManual : Bool) (manualStart : SdkResult) :
    List TEvent :=
  (v2Setup env).1 ++
    match (v2Setup env).2 with
    | .ok _ => if invokeManual then (v2ManualTriggerFunction manualStart).1 else []
    | .error _ => []

/-- Scans a trace in order and succeeds exactly when no `appStart` occurs
before the first `commandRegister`. -/
def noStartBeforeRegister : List TEvent → Bool
  | [] => true
  | TEvent.appStart :: _ => false
  | TEvent.commandRegister _ :: _ => true
  | _ :: rest => noStartBeforeRegister rest

/-- True when the promise resolved. -/
def exceptOk : Except String Unit → Bool
  | .ok _ => true
  | .error _ => false

/-- Sample credential record for concrete witnesses. -/
def credA : SlackCredential :=
  { botToken := "xoxb-1", appToken := "xapp-1", signingSecret := "s1" }

/-- Concrete environment: trigger mode with a failing `app.start()`. -/
def envTriggerFail : Env :=
  { credentials := credA, triggerType := TriggerType.slashCommand,
    slashCommandName := "/deploy", mode := Mode.trigger,
    startResult := SdkResult.err "boom" }

/-- Concrete environment: trigger mode with a successful `app.start()`. -/
def envTriggerOk : Env :=
  { credentials := credA, triggerType := TriggerType.slashCommand,
    slashCommandName := "/deploy", mode := Mode.trigger,
    startResult := SdkResult.ok }

/-- Concrete environment: the user selected the `events` trigger type. -/
def envEvents : Env :=
  { credentials := credA, triggerType := TriggerType.events,
    slashCommandName := "", mode := Mode.manual,
    startResult := SdkResult.ok }

/-- C1: when started in trigger mode and `app.start()` fails, the Dash
`trigger()` logs the error and re-throws it (the setup rejects with that
error), while the V2 `trigger()` logs the error and swallows it (the setup
resolves normally). -/
theorem start_failure_trigger_mode_divergence (env : Env) (e : String)
    (hm : env.mode = Mode.trigger) (hs : env.startResult = SdkResult.err e) :
    (dashSetup env).2 = Except.error e
      ∧ TEvent.logError "Error starting Slack Socket app in trigger mode:" e
          ∈ (dashSetup env).1
      ∧ (v2Setup env).2 = Except.ok ()
      ∧ TEvent.logError "Error starting Slack Socket app in trigger mode:" e
          ∈ (v2Setup env).1 := by
  simp [dashSetup, v2Setup, hm, hs]

/-- Witness for C1 at a concrete failing environment. -/
theorem start_failure_trigger_mode_divergence_witness :
    (dashSetup envTriggerFail).2 = Except.error "boom"
      ∧ TEvent.logError "Error starting Slack Socket app in trigger mode:" "boom"
          ∈ (dashSetup envTriggerFail).1
      ∧ (v2Setup envTriggerFail).2 = Except.ok ()
      ∧ TEvent.logError "Error starting Slack Socket app in trigger mode:" "boom"
          ∈ (v2Setup envTriggerFail).1 :=
  start_failure_trigger_mode_divergence envTriggerFail "boom" rfl rfl

/-- C2: every invocation of the registered handler calls `ack` exactly once,
and that call is the first observable action, hence before any emission; this
holds in both node files for every ack outcome and every event payload. -/
theorem ack_once_before_emit {V : Type} (ackResult : SdkResult)
    (p : HandlerParams V) :
    (∃ rest, (dashProcessRun ackResult p).1 = HEvent.ackCall :: rest
        ∧ rest.countP (fun ev => ev.isAck) = 0)
      ∧ (∃ rest, (v2ProcessRun ackResult p).1 = HEvent.ackCall :: rest
        ∧ rest.countP (fun ev => ev.isAck) = 0) := by
  cases ackResult <;>
    simp [dashProcessRun, v2ProcessRun, HEvent.isAck]

/-- C3: both files register exactly the pattern chosen from the configured
slash-command filter; a non-empty filter yields a pattern matching exactly
that command name, and the empty filter yields the catch-all `/.*/ ` pattern
matching every command. -/
theorem slash_command_filter_semantics (env : Env) (c : String) :
    TEvent.commandRegister (registeredPattern env.slashCommandName)
        ∈ (dashSetup env).1
      ∧ TEvent.commandRegister (registeredPattern env.slashCommandName)
          ∈ (v2Setup env).1
      ∧ (env.slashCommandName ≠ "" →
          (commandMatches (registeredPattern env.slashCommandName) c = true
            ↔ c = env.slashCommandName))
      ∧ (env.slashCommandName = "" →
          commandMatches (registeredPattern env.slashCommandName) c = true) := by
  refine ⟨?_, ?_, ?_, ?_⟩
  · cases hm : env.mode <;> cases hs : env.startResult <;>
      simp [dashSetup, hm, hs, setupPrefix]
  · cases hm : env.mode <;> cases hs : env.startResult <;>
      simp [v2Setup, hm, hs, setupPrefix]
  · intro hne
    simp [registeredPattern, hne, commandMatches]
  · intro heq
    simp [registeredPattern, heq, commandMatches]

/-- Witness for C3: with the concrete filter `/deploy`, the registered pattern
matches exactly that command name. -/
theorem slash_command_filter_semantics_witness :
    commandMatches (registeredPattern envTriggerFail.slashCommandName) "/deploy"
        = true
      ↔ "/deploy" = envTriggerFail.slashCommandName :=
  (slash_command_filter_semantics envTriggerFail "/deploy").2.2.1 (by decide)

/-- C4 is violated by the code: with the `events` trigger type selected, both
setup routines still register exactly one `app.command` listener and never
call `app.event` or `app.action`; `triggerType` is never read by `trigger()`. -/
theorem trigger_type_ignored :
    envEvents.triggerType = TriggerType.events
      ∧ (dashSetup envEvents).1.countP (fun ev => ev.isCommandRegister) = 1
      ∧ (dashSetup envEvents).1.countP (fun ev => ev.isEventRegister) = 0
      ∧ (dashSetup envEvents).1.countP (fun ev => ev.isActionRegister) = 0
      ∧ (v2Setup envEvents).1.countP (fun ev => ev.isCommandRegister) = 1
      ∧ (v2Setup envEvents).1.countP (fun ev => ev.isEventRegister) = 0
      ∧ (v2Setup envEvents).1.countP (fun ev => ev.isActionRegister) = 0 := by
  decide

/-- C5: in both files the returned `closeFunction` always attempts
`app.stop()` (an `appStop` call is in its trace for every stop outcome),
always resolves, and logs any stop error. -/
theorem close_function_total (stopResult : SdkResult) (e : String) :
    (dashCloseFunction stopResult).2 = Except.ok ()
      ∧ TEvent.appStop ∈ (dashCloseFunction stopResult).1
      ∧ (v2CloseFunction stopResult).2 = Except.ok ()
      ∧ TEvent.appStop ∈ (v2CloseFunction stopResult).1
      ∧ TEvent.logError "Error stopping Slack Socket app:" e
          ∈ (dashCloseFunction (SdkResult.err e)).1
      ∧ TEvent.logError "Error stopping Slack Socket app:" e
          ∈ (v2CloseFunction (SdkResult.err e)).1 := by
  cases stopResult <;> simp [dashCloseFunction, v2CloseFunction]

/-- C6: when the acknowledgement succeeds, the handler trace of both files is
exactly the `ack` call followed by one emission whose argument is the
single-item batch wrapping verbatim the four fields `command`, `body`,
`context`, `payload` of the inbound event. -/
theorem emission_verbatim_single_batch {V : Type} (p : HandlerParams V) :
    (dashProcessRun SdkResult.ok p).1 =
        [HEvent.ackCall,
         HEvent.emitCall
           [{ json := { command := p.command, body := p.body,
                        context := p.context, payload := p.payload } }]]
      ∧ (v2ProcessRun SdkResult.ok p).1 =
        [HEvent.ackCall,
         HEvent.emitCall
           [{ json := { command := p.command, body := p.body,
                        context := p.context, payload := p.payload } }]] :=
  ⟨rfl, rfl⟩

/-- C7 as stated is false: at a concrete environment (trigger mode, failing
start) the two `trigger()` routines differ observably — Dash rejects while V2
resolves. -/
theorem trigger_routines_not_identical :
    (dashSetup envTriggerFail).2 ≠ (v2Setup envTriggerFail).2 :=
  fun h => absurd (congrArg exceptOk h) (by decide)

/-- C7 amended: the two routines produce identical traces and identical
teardown and handler behaviour, and their results agree except on a failed
start — in trigger mode and in the manual test function, Dash rejects with the
start error while V2 resolves. -/
theorem trigger_routines_equal_except_start_failure (env : Env)
    (r : SdkResult) :
    (dashSetup env).1 = (v2Setup env).1
      ∧ ((dashSetup env).2 = (v2Setup env).2
          ↔ (env.mode = Mode.trigger → env.startResult.isOk = true))
      ∧ dashCloseFunction r = v2CloseFunction r
      ∧ (dashManualTriggerFunction r).1 = (v2ManualTriggerFunction r).1
      ∧ ((dashManualTriggerFunction r).2 = (v2ManualTriggerFunction r).2
          ↔ r.isOk = true)
      ∧ (∀ (V : Type) (p : HandlerParams V),
          dashProcessRun r p = v2ProcessRun r p) := by
  refine ⟨?_, ?_, ?_, ?_, ?_, ?_⟩
  · cases hm : env.mode <;> cases hs : env.startResult <;>
      simp [dashSetup, v2Setup, hm, hs]
  · cases hm : env.mode <;> cases hs : env.startResult <;>
      simp [dashSetup, v2Setup, SdkResult.isOk, hm, hs]
  · cases r <;> rfl
  · cases r <;> rfl
  · cases r <;> simp [dashManualTriggerFunction, v2ManualTriggerFunction,
      SdkResult.isOk]
  · intro V p
    cases r <;> rfl

/-- Witness for C7 amended at a concrete environment. -/
theorem trigger_routines_equal_except_start_failure_witness :
    (dashSetup envTriggerOk).1 = (v2Setup envTriggerOk).1 :=
  (trigger_routines_equal_except_start_failure envTriggerOk SdkResult.ok).1

/-- C8: in both files and in every mode — including a later manual test
invocation — no `app.start()` call occurs before the `app.command`
registration in the trace of a full run. -/
theorem register_before_start (env : Env) (invokeManual : Bool)
    (manualStart : SdkResult) :
    noStartBeforeRegister (dashRun env invokeManual manualStart) = true
      ∧ noStartBeforeRegister (v2Run env invokeManual manualStart) = true := by
  obtain ⟨cred, tt, name, mode, sr⟩ := env
  cases mode <;> cases sr <;> cases invokeManual <;> cases manualStart <;>
    exact ⟨rfl, rfl⟩

/-- C9: when the acknowledgement call rejects, the handler of both files makes
no emission (the trace is just the `ack` call) and the error propagates out of
the handler. -/
theorem ack_failure_no_emit {V : Type} (e : String) (p : HandlerParams V) :
    dashHandlerRun (SdkResult.err e) p
        = ([HEvent.ackCall], (Except.error e : Except String Unit))
      ∧ v2HandlerRun (SdkResult.err e) p
        = ([HEvent.ackCall], (Except.error e : Except String Unit)) :=
  ⟨rfl, rfl⟩

/-- C10: the start-failure divergence also holds on the manual test path: when
`app.start()` fails inside `manualTriggerFunction`, Dash logs and rejects with
the error while V2 logs and resolves. -/
theorem manual_start_failure_divergence (e : String) :
    (dashManualTriggerFunction (SdkResult.err e)).2 = Except.error e
      ∧ TEvent.logError "Error starting Slack Socket app in test mode:" e
          ∈ (dashManualTriggerFunction (SdkResult.err e)).1
      ∧ (v2ManualTriggerFunction (SdkResult.err e)).2 = Except.ok ()
      ∧ TEvent.logError "Error starting Slack Socket app in test mode:" e
          ∈ (v2ManualTriggerFunction (SdkResult.err e)).1 := by
  simp [dashManualTriggerFunction, v2ManualTriggerFunction]

end SlackSocket
